import Mathlib

/-!
Verification of the pet-photos backend (Express server) against its
natural-language specification.

The development shallowly embeds the request-shaping logic of
`POST /api/generate` (the multi-model server in `src/unnamed/part_002` and the
single-model server in `src/backend/server.js`), the error classification of
the catch handler, the persistence side effect of generation, the
`safeFilename` sanitizer, and the delete-by-category-and-filename operation
with its directory-traversal guard.

Conventions of the embedding: JSON fields that may be absent are `Option`
values (`none` models `undefined`); JavaScript truthiness of strings/numbers
is modelled explicitly (`""` and `0` are falsy); `Math.random()` is modelled
as a rational draw `q` with `0 ≤ q < 1`; numeric JSON inputs are modelled as
naturals/integers; filesystem paths are lists of segments rendered to
POSIX-style strings.
-/

/-- ASCII whitespace, the characters `String.prototype.trim` strips that can
occur in the requests we model. -/
def isSpaceChar (c : Char) : Bool :=
  decide (c = ' ' ∨ c = '\t' ∨ c = '\n' ∨ c = '\r')

/-- Model of JavaScript `s.trim()`: strip whitespace from both ends. -/
def jsTrim (s : String) : String :=
  String.mk (((s.toList.dropWhile isSpaceChar).reverse.dropWhile isSpaceChar).reverse)

/-- Model of `x || d` for an optional JSON number (`undefined` and `0` are
falsy). -/
def jsOrNat (v : Option Nat) (d : Nat) : Nat :=
  match v with
  | none => d
  | some n => if n = 0 then d else n

/-- Model of `x || d` for an optional JSON string (`undefined` and `""` are
falsy). -/
def jsOrStr (v : Option String) (d : String) : String :=
  match v with
  | none => d
  | some s => if s = "" then d else s

/-- Model of `x || d` for an optional rational-valued JSON number. -/
def jsOrRat (v : Option ℚ) (d : ℚ) : ℚ :=
  match v with
  | none => d
  | some x => if x = 0 then d else x

/-- Truthy projection of an optional string: `some s` survives only when
`s` is non-empty, matching `if (x) { ... }` on a string value. -/
def truthyStr (v : Option String) : Option String :=
  match v with
  | none => none
  | some s => if s = "" then none else some s

/-- Does `pat` occur as a contiguous run inside `s`?  Model of JavaScript
`String.prototype.includes`. -/
def hasSub (s pat : List Char) : Bool :=
  match s with
  | [] => pat.isEmpty
  | _ :: rest => (s.take pat.length == pat) || hasSub rest pat

/-- `msgHas m pat` models `m.includes(pat)` on the caught error message. -/
def msgHas (m pat : String) : Bool :=
  hasSub m.toList pat.toList

/-- Split a string at every occurrence of the character `c`, keeping empty
pieces, like JavaScript `s.split(c)`. -/
def splitOnCharAux (c : Char) : List Char → List Char → List String
  | [], acc => [String.mk acc.reverse]
  | d :: rest, acc =>
    if d = c then String.mk acc.reverse :: splitOnCharAux c rest []
    else splitOnCharAux c rest (d :: acc)

/-- Split a string on a character. -/
def splitOnChar (c : Char) (s : String) : List String :=
  splitOnCharAux c s.toList []

/-- Decimal digits to a natural number; `none` when empty or a non-digit
appears. -/
def decDigits (l : List Char) : Option Nat :=
  match l with
  | [] => none
  | _ =>
    l.foldl
      (fun acc c =>
        match acc with
        | none => none
        | some n => if '0' ≤ c ∧ c ≤ '9' then some (10 * n + (c.toNat - 48)) else none)
      (some 0)

/-- Parse a decimal natural from a string token. -/
def parseNatTok (s : String) : Option Nat :=
  decDigits s.toList

/-- Model of JavaScript `s.startsWith(pre)`: `pre` is a character-level
prefix of `s`. -/
def strStartsWith (s pre : String) : Bool :=
  s.toList.take pre.toList.length == pre.toList

/-- `Math.round(n / 32) * 32` for a natural `n`: round to the nearest
multiple of 32, ties upward (`Math.round(x) = ⌊x + 1/2⌋` for positive x). -/
def roundTo32 (n : Nat) : Nat :=
  ((n + 16) / 32) * 32

/-- `Math.floor(Math.random() * 1000000)` where `q` models the
`Math.random()` draw. -/
def randSeed (q : ℚ) : Int :=
  Int.floor (q * 1000000)

/-- Aspect-ratio mapping of the `openai-image-1.5` branch of the multi-model
server (`src/unnamed/part_002`): the listed landscape ratios map to `3:2`,
the listed portrait ratios to `2:3`, everything else to the `1:1` fallback. -/
def mapAspectOpenai (a : String) : String :=
  if a = "3:2" ∨ a = "4:3" ∨ a = "16:9" ∨ a = "21:9" then "3:2"
  else if a = "2:3" ∨ a = "3:4" ∨ a = "9:16" then "2:3"
  else "1:1"

/-- Aspect-ratio mapping of `src/backend/server.js`: a value already in the
supported set passes through, everything else falls back to `1:1`. -/
def mapAspectServer (a : String) : String :=
  if a = "1:1" ∨ a = "3:2" ∨ a = "2:3" then a else "1:1"

/-- Spec-side notion used by the claim: an aspect-ratio string `"w:h"` with
numeric parts is wider than tall when `w > h`. -/
def widerThanTall (s : String) : Bool :=
  match splitOnChar ':' s with
  | [a, b] =>
    match parseNatTok a, parseNatTok b with
    | some x, some y => decide (y < x)
    | _, _ => false
  | _ => false

/-- The JSON body of `POST /api/generate` as destructured by the multi-model
server: every field may be absent (`none` models `undefined`). -/
structure GenRequest where
  prompt : Option String := none
  model : Option String := none
  aspect : Option String := none
  size : Option String := none
  guidance_scale : Option ℚ := none
  num_inference_steps : Option Nat := none
  go_fast : Option Bool := none
  megapixels : Option String := none
  output_format : Option String := none
  output_quality : Option Nat := none
  disable_safety_checker : Option Bool := none
  safety_tolerance : Option Nat := none
  prompt_upsampling : Option Bool := none
  width : Option Nat := none
  height : Option Nat := none
  image_prompt : Option String := none
  num_outputs : Option Nat := none
  disable_nsfw_checker : Option Bool := none
  remove_background : Option Bool := none
  threshold : Option Nat := none
  stray_removal : Option ℚ := none
  trim_background : Option Bool := none
  padding : Option Nat := none
  quality : Option String := none
  background : Option String := none
  moderation : Option String := none
  input_fidelity : Option String := none
  number_of_images : Option Nat := none
  output_compression : Option Nat := none
  input_images : Option (List String) := none
  user_id : Option String := none
  openai_api_key : Option String := none
  seed : Option Int := none
deriving DecidableEq

/-- Provider payload of the `flux-schnell` branch. -/
structure FluxSchnellInput where
  prompt : String
  aspect : String
  num_inference_steps : Nat
  go_fast : Bool
  megapixels : String
  output_format : String
  output_quality : Nat
  disable_safety_checker : Bool
  seed : Option Int
deriving DecidableEq

/-- Provider payload of the `flux-1.1-pro` branch. -/
structure FluxProInput where
  prompt : String
  aspect : String
  output_format : String
  output_quality : Nat
  safety_tolerance : Nat
  prompt_upsampling : Bool
  width : Option Nat
  height : Option Nat
  image_prompt : Option String
  seed : Option Int
deriving DecidableEq

/-- Provider payload of the `stable-diffusion` branch. -/
structure StableDiffusionInput where
  prompt : String
  width : Nat
  height : Nat
  num_outputs : Nat
  disable_nsfw_checker : Bool
  remove_background : Bool
  threshold : Option Nat
  stray_removal : Option ℚ
  trim_background : Option Bool
  padding : Option Nat
  seed : Int
deriving DecidableEq

/-- Provider payload of the `openai-image-1.5` branch. -/
structure OpenaiImageInput where
  prompt : String
  aspect : String
  quality : String
  number_of_images : Nat
  output_format : String
  output_compression : Nat
  background : String
  moderation : String
  openai_api_key : Option String
  input_fidelity : Option String
  user_id : Option String
  input_images : Option (List String)
deriving DecidableEq

/-- Provider payload of the default (SeedreamS-3) branch. -/
structure SeedreamInput where
  prompt : String
  aspect : String
  size : String
  guidance_scale : ℚ
  seed : Int
deriving DecidableEq

/-- The provider-ready payload, one variant per branch of the if/else chain
on the model name. -/
inductive Payload where
  | fluxSchnell (i : FluxSchnellInput)
  | fluxPro (i : FluxProInput)
  | stableDiffusion (i : StableDiffusionInput)
  | openaiImage (i : OpenaiImageInput)
  | seedream (i : SeedreamInput)
deriving DecidableEq

/-- The `input_images` field of an openai payload, `none` for other
variants. -/
def Payload.openaiImages : Payload → Option (List String)
  | .openaiImage i => i.input_images
  | _ => none

/-- The provider-parameter mapper of the multi-model server
(`src/unnamed/part_002`, `POST /api/generate`): dispatch on the model name
and build the provider payload.  `envKey` models `process.env.OPENAI_API_KEY`
and `q` models the `Math.random()` draw used for the seedream seed. -/
def buildPayload (envKey : Option String) (req : GenRequest) (q : ℚ) : Payload :=
  let pt := jsTrim (req.prompt.getD "")
  let ar := req.aspect.getD "1:1"
  let m := req.model.getD "seedream"
  if m = "flux-schnell" then
    .fluxSchnell
      { prompt := pt
        aspect := ar
        num_inference_steps := jsOrNat req.num_inference_steps 4
        go_fast := req.go_fast.getD true
        megapixels := jsOrStr req.megapixels "1"
        output_format := jsOrStr req.output_format "webp"
        output_quality := jsOrNat req.output_quality 80
        disable_safety_checker := req.disable_safety_checker.getD false
        seed := req.seed }
  else if m = "flux-1.1-pro" then
    .fluxPro
      { prompt := pt
        aspect := ar
        output_format := jsOrStr req.output_format "webp"
        output_quality := jsOrNat req.output_quality 80
        safety_tolerance := jsOrNat req.safety_tolerance 2
        prompt_upsampling := req.prompt_upsampling.getD false
        width := if ar = "custom" then req.width.map roundTo32 else none
        height := if ar = "custom" then req.height.map roundTo32 else none
        image_prompt :=
          match req.image_prompt with
          | some s => if jsTrim s = "" then none else some (jsTrim s)
          | none => none
        seed := req.seed }
  else if m = "stable-diffusion" then
    .stableDiffusion
      { prompt := pt
        width := jsOrNat req.width 1024
        height := jsOrNat req.height 1024
        num_outputs := jsOrNat req.num_outputs 1
        disable_nsfw_checker := req.disable_nsfw_checker.getD false
        remove_background := req.remove_background.getD false
        threshold :=
          if req.remove_background.getD false then some (req.threshold.getD 80) else none
        stray_removal :=
          if req.remove_background.getD false then some (req.stray_removal.getD (1 / 100))
          else none
        trim_background :=
          if req.remove_background.getD false then some (req.trim_background.getD false)
          else none
        padding :=
          if req.remove_background.getD false ∧ req.trim_background.getD false then
            some (req.padding.getD 0)
          else none
        seed := req.seed.getD (-1) }
  else if m = "openai-image-1.5" then
    .openaiImage
      { prompt := pt
        aspect := mapAspectOpenai ar
        quality := jsOrStr req.quality "auto"
        number_of_images := min (jsOrNat req.number_of_images 1) 10
        output_format := jsOrStr req.output_format "webp"
        output_compression := jsOrNat req.output_compression 90
        background := jsOrStr req.background "auto"
        moderation := jsOrStr req.moderation "auto"
        openai_api_key :=
          match truthyStr req.openai_api_key with
          | some k => some k
          | none => truthyStr envKey
        input_fidelity := truthyStr req.input_fidelity
        user_id := truthyStr req.user_id
        input_images :=
          match req.input_images with
          | some l => if 0 < l.length then some l else none
          | none => none }
  else
    .seedream
      { prompt := pt
        aspect := ar
        size := jsOrStr req.size "regular"
        guidance_scale := jsOrRat req.guidance_scale (7 / 2)
        seed := req.seed.getD (randSeed q) }

/-- An error-response JSON body.  `details`, `timestamp` and `success` are
optional because the early validation returns omit them; `timestamp` records
whether the field is present at all. -/
structure ErrBody where
  error : String
  details : Option String := none
  timestamp : Bool := false
  success : Option Bool := none
deriving DecidableEq

/-- Outcome of the generate handler up to the provider call: either an early
JSON rejection (no provider call), or the provider is invoked with the mapped
payload. -/
inductive GenOutcome where
  | reject (status : Nat) (body : ErrBody)
  | callProvider (p : Payload)
deriving DecidableEq

/-- `!prompt?.trim()`: the prompt is absent, empty, or whitespace-only. -/
def promptMissing (p : Option String) : Bool :=
  match p with
  | none => true
  | some s => jsTrim s = ""

/-- The generate handler of the multi-model server up to the provider call:
prompt validation, then the `REPLICATE_API_TOKEN` check, then the mapper. -/
def handleGenerate (hasToken : Bool) (envKey : Option String) (req : GenRequest)
    (q : ℚ) : GenOutcome :=
  if promptMissing req.prompt then
    .reject 400 { error := "Prompt required" }
  else if ¬ hasToken then
    .reject 500
      { error := "Replicate API token not configured"
        details := some "Please set REPLICATE_API_TOKEN environment variable" }
  else
    .callProvider (buildPayload envKey req q)

/-- The catch-handler classification of a provider failure into an HTTP
status, checking the caught error's message in source order. -/
def classifyError (msg : String) : Nat :=
  if msgHas msg "auth" || msgHas msg "token" then 401
  else if msgHas msg "not found" then 404
  else if msgHas msg "rate limit" then 429
  else if msgHas msg "insufficient credits" then 402
  else 500

/-- Metadata returned by `saveImageFromUrl` on success
(`src/backend/server.js`). -/
structure SavedImage where
  filename : String
  path : String
  url : String
  size : Nat
deriving DecidableEq

/-- The try/catch around the `saveImageFromUrl` side effect of generation:
a failure is swallowed and leaves `savedImage` at `null`. -/
def handleSave (r : Except String SavedImage) : Option SavedImage :=
  match r with
  | .ok si => some si
  | .error _ => none

/-- The fields of the generation response relevant to persistence. -/
structure GenResult where
  imageUrl : String
  localUrl : Option String
  prompt : String
  success : Bool
deriving DecidableEq

/-- The `result` object built on the success path of `POST /api/generate` in
`src/backend/server.js`: `localUrl` is `savedImage?.url || null` and
`success` is unconditionally `true`. -/
def buildGenResult (imageUrl promptTrim : String) (saved : Option SavedImage) :
    GenResult :=
  { imageUrl := imageUrl
    localUrl :=
      match saved with
      | some si => if si.url = "" then none else some si.url
      | none => none
    prompt := promptTrim
    success := true }

/-- The character class `[a-z0-9.-]` kept by `safeFilename`. -/
def allowedChar (c : Char) : Bool :=
  decide (('a' ≤ c ∧ c ≤ 'z') ∨ ('0' ≤ c ∧ c ≤ '9') ∨ c = '.' ∨ c = '-')

/-- The first replace of `safeFilename` on one character: a character
outside the allowed class becomes a dash. -/
def sanitizeChar (c : Char) : Char :=
  if allowedChar c then c else '-'

/-- The second replace of `safeFilename`: collapse every maximal run of
dashes to a single dash. -/
def collapseDashes : List Char → List Char
  | [] => []
  | c :: rest =>
    match rest with
    | [] => [c]
    | d :: _ =>
      if c = '-' ∧ d = '-' then collapseDashes rest else c :: collapseDashes rest

/-- The `safeFilename` sanitizer: lowercase, replace characters outside
`[a-z0-9.-]` by dashes, collapse dash runs, truncate to 50 characters, and
fall back to `file` when the result is empty. -/
def safeFilename (name : String) : String :=
  let cleaned := collapseDashes ((name.toList.map Char.toLower).map sanitizeChar)
  let truncated := cleaned.take 50
  if truncated = [] then "file" else String.mk truncated

/-- One step of POSIX path normalization: `..` pops a segment, `.` and empty
segments disappear, anything else is appended. -/
def normStep (acc : List String) (seg : String) : List String :=
  if seg = ".." then acc.dropLast
  else if seg = "." ∨ seg = "" then acc
  else acc ++ [seg]

/-- Normalize the segments of an absolute path (`..` above the root is
dropped, as Node's `path.join` does for absolute paths). -/
def normSegs (segs : List String) : List String :=
  segs.foldl normStep []

/-- Node's `path.join(dir, name)` for an absolute, already-normalized `dir`
given as segments: append the slash-separated pieces of `name` and
normalize. -/
def pathJoin (dir : List String) (name : String) : List String :=
  normSegs (dir ++ splitOnChar '/' name)

/-- Render an absolute path from its segments. -/
def renderAbs (segs : List String) : String :=
  "/" ++ String.intercalate "/" segs

/-- Outcome of `DELETE /api/images/:category/:filename`. -/
inductive DelOutcome where
  | denied
  | missing
  | deleted (p : List String)
deriving DecidableEq

/-- `getCategoryDir`: the directory name for a category (anything other than
`customer` and `base` falls back to `generated`). -/
def catName (category : String) : String :=
  if category = "customer" then "customer"
  else if category = "base" then "base"
  else "generated"

/-- The delete handler: join the filename under the category directory,
reject with 403 unless the joined path string starts with the directory
string, report 404 when the file is absent, otherwise unlink it.  `uploads`
is the segment list of `UPLOADS_DIR` and `fsHas` is the filesystem oracle
behind `fs.existsSync`. -/
def deleteImage (uploads : List String) (category filename : String)
    (fsHas : List String → Bool) : DelOutcome :=
  let dir := uploads ++ [catName category]
  let fp := pathJoin dir filename
  if ¬ strStartsWith (renderAbs fp) (renderAbs dir) then .denied
  else if ¬ fsHas fp then .missing
  else .deleted fp

/-- The file removed by a delete outcome, if any. -/
def removedFile : DelOutcome → Option (List String)
  | .deleted p => some p
  | _ => none

/-- Spec-side notion: the path `fp` lies under the directory `dir` when
`dir` is a segment-level prefix of `fp`. -/
def underDir (dir fp : List String) : Bool :=
  fp.take dir.length == dir

example : mapAspectOpenai "16:9" = "3:2" := by decide
example : mapAspectOpenai "5:4" = "1:1" := by decide
example : mapAspectServer "16:9" = "1:1" := by decide
example : widerThanTall "5:4" = true := by decide
example : jsTrim "  a b  " = "a b" := by decide
example : msgHas "token rate limit" "rate limit" = true := by decide
example : roundTo32 1000 = 992 := by decide
example :
    buildPayload none { prompt := some "p", model := some "flux-schnell" } (1 / 2) =
      .fluxSchnell
        { prompt := "p", aspect := "1:1", num_inference_steps := 4, go_fast := true,
          megapixels := "1", output_format := "webp", output_quality := 80,
          disable_safety_checker := false, seed := none } := by decide
example :
    handleGenerate true none { prompt := some "   " } (1 / 2) =
      .reject 400 { error := "Prompt required" } := by decide
example : classifyError "token rate limit" = 401 := by decide
example : safeFilename "My File (1).PNG" = "my-file-1-.png" := by decide
example : safeFilename "" = "file" := by decide
example :
    pathJoin ["app", "uploads", "base"] "../../etc/passwd" = ["app", "etc", "passwd"] := by
  decide
example :
    deleteImage ["app", "uploads"] "base" "../../etc/passwd" (fun _ => true) =
      .denied := by decide
example :
    deleteImage ["app", "uploads"] "base" "../basement/pw" (fun _ => true) =
      .deleted ["app", "uploads", "basement", "pw"] := by decide

lemma mem_collapseDashes {c : Char} : ∀ {l : List Char}, c ∈ collapseDashes l → c ∈ l := by
  intro l
  induction l with
  | nil => simp [collapseDashes]
  | cons a rest ih =>
    cases rest with
    | nil => simp [collapseDashes]
    | cons b t =>
      simp only [collapseDashes]
      split
      · intro h
        exact List.mem_cons_of_mem a (ih h)
      · intro h
        rcases List.mem_cons.mp h with h | h
        · exact h ▸ List.mem_cons_self a _
        · exact List.mem_cons_of_mem a (ih h)

lemma collapseDashes_ne_nil : ∀ {l : List Char}, l ≠ [] → collapseDashes l ≠ [] := by
  intro l
  induction l with
  | nil => intro h; exact absurd rfl h
  | cons a rest ih =>
    intro _
    cases rest with
    | nil => simp [collapseDashes]
    | cons b t =>
      simp only [collapseDashes]
      split
      · exact ih (by simp)
      · simp

lemma allowedChar_sanitizeChar (c : Char) : allowedChar (sanitizeChar c) = true := by
  unfold sanitizeChar
  split
  · assumption
  · decide

/-- C10: for every input string, `safeFilename` returns a non-empty string
of at most 50 characters consisting only of lowercase letters, digits, dot
and dash, so the Content-Disposition filename can contain no quotes,
whitespace, path separators, or control characters. -/
theorem C10_safeFilename_sound :
    ∀ name : String,
      safeFilename name ≠ "" ∧
        (safeFilename name).length ≤ 50 ∧
        ∀ c ∈ (safeFilename name).toList, allowedChar c = true := by
  intro name
  unfold safeFilename
  by_cases h :
      (collapseDashes ((name.toList.map Char.toLower).map sanitizeChar)).take 50 = []
  · rw [if_pos h]
    refine ⟨by decide, by decide, ?_⟩
    intro c hc
    fin_cases hc <;> decide
  · rw [if_neg h]
    refine ⟨?_, ?_, ?_⟩
    · intro hcon
      exact h (congrArg String.toList hcon)
    · show (List.take 50 _).length ≤ 50
      simp [List.length_take]
    · intro c hc
      have hc' : c ∈ collapseDashes ((name.toList.map Char.toLower).map sanitizeChar) :=
        List.take_subset 50 _ hc
      have hc'' : c ∈ (name.toList.map Char.toLower).map sanitizeChar :=
        mem_collapseDashes hc'
      obtain ⟨a, _, rfl⟩ := List.mem_map.mp hc''
      exact allowedChar_sanitizeChar a

/-- Witness for C10 at a concrete filename and character. -/
theorem C10_witness :
    safeFilename "Pet Photo (1).JPG" ≠ "" ∧ allowedChar 'p' = true := by
  refine ⟨(C10_safeFilename_sound "Pet Photo (1).JPG").1, ?_⟩
  apply (C10_safeFilename_sound "Pet Photo (1).JPG").2.2
  decide

/-- C1 counterexample: the aspect ratio 5:4 is wider than tall, yet the
openai-image-1.5 mapper of the multi-model server sends it to the 1:1
fallback rather than to 3:2, refuting the claim that every wider-than-tall
ratio maps to 3:2. -/
theorem C1_counterexample :
    widerThanTall "5:4" = true ∧ mapAspectOpenai "5:4" = "1:1" ∧
      mapAspectOpenai "5:4" ≠ "3:2" := by decide

/-- C1 (amended): the openai-image-1.5 mapping is total into the set
containing 1:1, 3:2 and 2:3, and it is the mapped payload's aspect field;
exactly the listed landscape ratios 3:2, 4:3, 16:9, 21:9 map to 3:2 and the
listed portrait ratios 2:3, 3:4, 9:16 map to 2:3, every other string mapping
to 1:1; the single-model server instead passes through members of the set
and sends everything else, including 16:9, to 1:1. -/
theorem C1_aspect_mapping :
    (∀ a, mapAspectOpenai a = "1:1" ∨ mapAspectOpenai a = "3:2" ∨
        mapAspectOpenai a = "2:3") ∧
      (∀ envKey req q, req.model = some "openai-image-1.5" →
        ∃ i, buildPayload envKey req q = .openaiImage i ∧
          i.aspect = mapAspectOpenai (req.aspect.getD "1:1")) ∧
      (mapAspectOpenai "3:2" = "3:2" ∧ mapAspectOpenai "4:3" = "3:2" ∧
        mapAspectOpenai "16:9" = "3:2" ∧ mapAspectOpenai "21:9" = "3:2") ∧
      (mapAspectOpenai "2:3" = "2:3" ∧ mapAspectOpenai "3:4" = "2:3" ∧
        mapAspectOpenai "9:16" = "2:3") ∧
      (∀ a, a ≠ "3:2" → a ≠ "4:3" → a ≠ "16:9" → a ≠ "21:9" → a ≠ "2:3" →
        a ≠ "3:4" → a ≠ "9:16" → mapAspectOpenai a = "1:1") ∧
      (∀ a, mapAspectServer a = "1:1" ∨ mapAspectServer a = "3:2" ∨
        mapAspectServer a = "2:3") ∧
      mapAspectServer "16:9" = "1:1" := by
  refine ⟨?_, ?_, by decide, by decide, ?_, ?_, by decide⟩
  · intro a
    unfold mapAspectOpenai
    split
    · exact Or.inr (Or.inl rfl)
    · split
      · exact Or.inr (Or.inr rfl)
      · exact Or.inl rfl
  · intro envKey req q hm
    simp only [buildPayload, hm, Option.getD_some]
    rw [if_neg (by decide), if_neg (by decide), if_neg (by decide), if_pos trivial]
    exact ⟨_, rfl, rfl⟩
  · intro a h1 h2 h3 h4 h5 h6 h7
    simp [mapAspectOpenai, h1, h2, h3, h4, h5, h6, h7]
  · intro a
    unfold mapAspectServer
    split
    · rename_i h
      exact h
    · exact Or.inl rfl

/-- Witness for C1 at concrete inputs: an unrecognized ratio falls back to
1:1 and the end-to-end 16:9 request maps to 3:2 on the multi-model path. -/
theorem C1_witness :
    mapAspectOpenai "7:5" = "1:1" ∧
      ∃ i,
        buildPayload none
            { prompt := some "city", model := some "openai-image-1.5",
              aspect := some "16:9" } (1 / 2) =
          .openaiImage i ∧ i.aspect = mapAspectOpenai "16:9" := by
  constructor
  · exact C1_aspect_mapping.2.2.2.2.1 "7:5" (by decide) (by decide) (by decide)
      (by decide) (by decide) (by decide) (by decide)
  · exact C1_aspect_mapping.2.1 none
      { prompt := some "city", model := some "openai-image-1.5", aspect := some "16:9" }
      (1 / 2) rfl

/-- C2 counterexample: a request supplying six reference images yields a
payload whose input_images has six entries, refuting the at-most-5 cap. -/
theorem C2_counterexample :
    Payload.openaiImages
        (buildPayload none
          { prompt := some "p", model := some "openai-image-1.5",
            input_images := some ["a", "b", "c", "d", "e", "f"] } (1 / 2)) =
      some ["a", "b", "c", "d", "e", "f"] ∧
      ¬ ((["a", "b", "c", "d", "e", "f"] : List String).length ≤ 5) := by decide

/-- C2 (amended): a non-empty input_images list is placed in the
openai-image-1.5 payload verbatim, preserving the caller's order, but the
mapper applies no cap — a list longer than 5 passes through whole (the
5-image limit exists only in the browser UI). -/
theorem C2_input_images_passthrough :
    ∀ envKey req q (l : List String), req.model = some "openai-image-1.5" →
      req.input_images = some l → l ≠ [] →
      Payload.openaiImages (buildPayload envKey req q) = some l := by
  intro envKey req q l hm hi hl
  have hlen : 0 < l.length := List.length_pos.mpr hl
  simp [buildPayload, Payload.openaiImages, hm, hi, hlen]

/-- Witness for C2 at a concrete two-image request. -/
theorem C2_witness :
    Payload.openaiImages
        (buildPayload none
          { prompt := some "p", model := some "openai-image-1.5",
            input_images := some ["a", "b"] } (1 / 2)) =
      some ["a", "b"] :=
  C2_input_images_passthrough none
    { prompt := some "p", model := some "openai-image-1.5",
      input_images := some ["a", "b"] }
    (1 / 2) ["a", "b"] rfl rfl (by decide)

/-- C3 counterexample: the filename `../basement/pw` under category `base`
joins to a sibling of the base directory — a path outside it at the segment
level — yet the string-prefix guard accepts it and the file is unlinked,
refuting the claim that every escaping path is rejected with 403. -/
theorem C3_counterexample :
    deleteImage ["app", "uploads"] "base" "../basement/pw" (fun _ => true) =
        .deleted ["app", "uploads", "basement", "pw"] ∧
      underDir (["app", "uploads"] ++ [catName "base"])
          ["app", "uploads", "basement", "pw"] = false ∧
      removedFile
          (deleteImage ["app", "uploads"] "base" "../basement/pw" (fun _ => true)) =
        some ["app", "uploads", "basement", "pw"] := by decide

/-- C3 (amended): the delete handler rejects with access denied — removing
nothing — exactly when the joined path fails the character-level prefix check
against the category directory; in particular the traversal
`DELETE base/../../etc/passwd` is denied with the filesystem untouched.  The
guard is only a string prefix, so a joined path escaping into a sibling
directory whose name extends the category directory name is not rejected. -/
theorem C3_traversal_guard :
    (∀ uploads category filename fsHas,
        strStartsWith (renderAbs (pathJoin (uploads ++ [catName category]) filename))
            (renderAbs (uploads ++ [catName category])) = false →
          deleteImage uploads category filename fsHas = .denied ∧
            removedFile (deleteImage uploads category filename fsHas) = none) ∧
      ∀ fsHas, deleteImage ["app", "uploads"] "base" "../../etc/passwd" fsHas = .denied ∧
        removedFile (deleteImage ["app", "uploads"] "base" "../../etc/passwd" fsHas) =
          none := by
  constructor
  · intro uploads category filename fsHas h
    constructor
    · simp [deleteImage, h]
    · simp [deleteImage, h, removedFile]
  · intro fsHas
    have h :
        strStartsWith
            (renderAbs (pathJoin ["app", "uploads", catName "base"] "../../etc/passwd"))
            (renderAbs ["app", "uploads", catName "base"]) = false := by decide
    constructor
    · simp [deleteImage, h]
    · simp [deleteImage, h, removedFile]

/-- Witness for C3 at a concrete escaping filename. -/
theorem C3_witness :
    deleteImage ["app", "uploads"] "generated" "../../x" (fun _ => true) = .denied ∧
      removedFile (deleteImage ["app", "uploads"] "generated" "../../x" (fun _ => true)) =
        none :=
  C3_traversal_guard.1 ["app", "uploads"] "generated" "../../x" (fun _ => true) (by decide)

/-- C4 counterexample: a whitespace-only prompt is rejected with status 400,
but the body carries only the error field — its success field is absent, not
`false`, and it has no details or timestamp — refuting the claimed body
shape. -/
theorem C4_counterexample :
    handleGenerate true none { prompt := some "   " } (1 / 2) =
        .reject 400 { error := "Prompt required" } ∧
      ({ error := "Prompt required" } : ErrBody).success ≠ some false ∧
      ({ error := "Prompt required" } : ErrBody).details = none ∧
      ({ error := "Prompt required" } : ErrBody).timestamp = false := by decide

/-- C4 (amended): for every modelId, a request whose prompt is absent,
empty, or whitespace-only is rejected with HTTP 400 and no provider call is
made; the 400 body, however, is only the error field (the
details-timestamp-success-false shape appears only on catch-path errors). -/
theorem C4_prompt_validation :
    ∀ hasToken envKey req q, promptMissing req.prompt = true →
      handleGenerate hasToken envKey req q =
          .reject 400 { error := "Prompt required" } ∧
        ∀ p, handleGenerate hasToken envKey req q ≠ .callProvider p := by
  intro hasToken envKey req q h
  constructor
  · simp [handleGenerate, h]
  · intro p
    simp [handleGenerate, h]

/-- Witness for C4: an absent prompt on a flux-schnell request. -/
theorem C4_witness :
    handleGenerate true none { prompt := none, model := some "flux-schnell" } (1 / 2) =
      .reject 400 { error := "Prompt required" } :=
  (C4_prompt_validation true none { prompt := none, model := some "flux-schnell" }
    (1 / 2) (by decide)).1

/-- C5 (confirmed): provider failures are classified on the caught message
in priority order — auth or token mentions give 401, then not found gives
404, then rate limit gives 429, then insufficient credits gives 402, and
anything else 500; a message matching two categories gets the
higher-priority status, e.g. one containing both token and rate limit gives
401. -/
theorem C5_error_classification :
    (∀ m, (msgHas m "auth" = true ∨ msgHas m "token" = true) →
        classifyError m = 401) ∧
      (∀ m, msgHas m "auth" = false → msgHas m "token" = false →
        msgHas m "not found" = true → classifyError m = 404) ∧
      (∀ m, msgHas m "auth" = false → msgHas m "token" = false →
        msgHas m "not found" = false → msgHas m "rate limit" = true →
        classifyError m = 429) ∧
      (∀ m, msgHas m "auth" = false → msgHas m "token" = false →
        msgHas m "not found" = false → msgHas m "rate limit" = false →
        msgHas m "insufficient credits" = true → classifyError m = 402) ∧
      (∀ m, msgHas m "auth" = false → msgHas m "token" = false →
        msgHas m "not found" = false → msgHas m "rate limit" = false →
        msgHas m "insufficient credits" = false → classifyError m = 500) ∧
      ∀ m, msgHas m "token" = true → msgHas m "rate limit" = true →
        classifyError m = 401 := by
  refine ⟨?_, ?_, ?_, ?_, ?_, ?_⟩
  · intro m h
    rcases h with h | h <;> simp [classifyError, h]
  · intro m h1 h2 h3
    simp [classifyError, h1, h2, h3]
  · intro m h1 h2 h3 h4
    simp [classifyError, h1, h2, h3, h4]
  · intro m h1 h2 h3 h4 h5
    simp [classifyError, h1, h2, h3, h4, h5]
  · intro m h1 h2 h3 h4 h5
    simp [classifyError, h1, h2, h3, h4, h5]
  · intro m h1 _
    simp [classifyError, h1]

/-- Witness for C5: a message mentioning both token and rate limit is
classified 401. -/
theorem C5_witness : classifyError "token rate limit" = 401 :=
  C5_error_classification.2.2.2.2.2 "token rate limit" (by decide) (by decide)

/-- C6 (confirmed): when saving the generated remote image fails, the
failure is swallowed — the generation response still has success true and a
null localUrl. -/
theorem C6_persistence_nonfatal :
    ∀ url promptTrim err : String,
      (buildGenResult url promptTrim (handleSave (Except.error err))).success = true ∧
        (buildGenResult url promptTrim (handleSave (Except.error err))).localUrl =
          none := by
  intro url promptTrim err
  exact ⟨rfl, rfl⟩

/-- C7 (confirmed): under a custom flux-1.1-pro aspect ratio, supplied width
and height are each rounded to the nearest multiple of 32 (1000 becomes
992); the rounding fixes multiples of 32, is idempotent, always lands on a
multiple of 32, and moves the value by at most 16. -/
theorem C7_custom_rounding :
    (∀ envKey req q w h, req.model = some "flux-1.1-pro" →
        req.aspect = some "custom" → req.width = some w → req.height = some h →
        ∃ i, buildPayload envKey req q = .fluxPro i ∧
          i.width = some (roundTo32 w) ∧ i.height = some (roundTo32 h)) ∧
      roundTo32 1000 = 992 ∧
      (∀ k, roundTo32 (32 * k) = 32 * k) ∧
      (∀ n, roundTo32 (roundTo32 n) = roundTo32 n) ∧
      ∀ n, roundTo32 n % 32 = 0 ∧ ((roundTo32 n : Int) - n).natAbs ≤ 16 := by
  refine ⟨?_, by decide, ?_, ?_, ?_⟩
  · intro envKey req q w h hm ha hw hh
    simp only [buildPayload, hm, Option.getD_some]
    rw [if_neg (by decide), if_pos trivial]
    refine ⟨_, rfl, ?_, ?_⟩
    · simp [ha, hw]
    · simp [ha, hh]
  · intro k
    unfold roundTo32
    omega
  · intro n
    unfold roundTo32
    omega
  · intro n
    unfold roundTo32
    constructor
    · omega
    · omega

/-- Witness for C7: a concrete custom-ratio request with width 1000 and
height 1024. -/
theorem C7_witness :
    ∃ i,
      buildPayload none
          { prompt := some "p", model := some "flux-1.1-pro",
            aspect := some "custom", width := some 1000, height := some 1024 }
          (1 / 2) =
        .fluxPro i ∧ i.width = some (roundTo32 1000) ∧ i.height = some (roundTo32 1024) :=
  C7_custom_rounding.1 none
    { prompt := some "p", model := some "flux-1.1-pro", aspect := some "custom",
      width := some 1000, height := some 1024 }
    (1 / 2) 1000 1024 rfl rfl rfl rfl

/-- C8 (confirmed): any model name other than the four named ones — unknown
strings included — reaches the seedream builder, which defaults size to
regular and guidance scale to 3.5, passes the request's aspect ratio
through, uses the caller's seed when supplied and otherwise draws
`Math.floor(Math.random() * 1000000)`, an integer in the interval from 0
inclusive to 1000000 exclusive. -/
theorem C8_seedream_fallback :
    ∀ envKey req q, 0 ≤ q → q < 1 →
      req.model.getD "seedream" ≠ "flux-schnell" →
      req.model.getD "seedream" ≠ "flux-1.1-pro" →
      req.model.getD "seedream" ≠ "stable-diffusion" →
      req.model.getD "seedream" ≠ "openai-image-1.5" →
      ∃ i, buildPayload envKey req q = .seedream i ∧
        i.size = jsOrStr req.size "regular" ∧
        i.guidance_scale = jsOrRat req.guidance_scale (7 / 2) ∧
        i.aspect = req.aspect.getD "1:1" ∧
        (∀ s, req.seed = some s → i.seed = s) ∧
        (req.seed = none → i.seed = randSeed q ∧ 0 ≤ i.seed ∧ i.seed < 1000000) := by
  intro envKey req q hq0 hq1 h1 h2 h3 h4
  have hrs0 : 0 ≤ randSeed q := by
    unfold randSeed
    exact Int.floor_nonneg.mpr (mul_nonneg hq0 (by norm_num))
  have hrs1 : randSeed q < 1000000 := by
    unfold randSeed
    rw [Int.floor_lt]
    push_cast
    nlinarith [hq1]
  simp only [buildPayload]
  rw [if_neg h1, if_neg h2, if_neg h3, if_neg h4]
  refine ⟨_, rfl, rfl, rfl, rfl, ?_, ?_⟩
  · intro s hs
    simp [hs]
  · intro hn
    simp only [hn, Option.getD_none]
    exact ⟨trivial, hrs0, hrs1⟩

/-- Witness for C8: the end-to-end seedream scenario with the random draw
one half, giving seed 500000. -/
theorem C8_witness :
    ∃ i,
      buildPayload none { prompt := some "a red fox", model := some "seedream" }
          (1 / 2) =
        .seedream i ∧
        i.size = "regular" ∧ i.guidance_scale = 7 / 2 ∧ i.aspect = "1:1" ∧
        i.seed = randSeed (1 / 2) ∧ 0 ≤ i.seed ∧ i.seed < 1000000 := by
  obtain ⟨i, hb, hs, hg, ha, _, hnone⟩ :=
    C8_seedream_fallback none { prompt := some "a red fox", model := some "seedream" }
      (1 / 2) (by norm_num) (by norm_num) (by decide) (by decide) (by decide) (by decide)
  obtain ⟨hr, hr0, hr1⟩ := hnone rfl
  exact ⟨i, hb, hs, hg, ha, hr, hr0, hr1⟩

/-- C9 counterexample: a flux-schnell request supplying 50 inference steps
yields a payload whose num_inference_steps is 50, outside the claimed 1 to 4
domain — the mapper does not clamp. -/
theorem C9_counterexample :
    buildPayload none
        { prompt := some "p", model := some "flux-schnell",
          num_inference_steps := some 50 } (1 / 2) =
      .fluxSchnell
        { prompt := "p", aspect := "1:1", num_inference_steps := 50, go_fast := true,
          megapixels := "1", output_format := "webp", output_quality := 80,
          disable_safety_checker := false, seed := none } ∧
      ¬ (50 ≤ 4) := by decide

/-- C9 (amended): a flux-schnell request with no optional parameters maps to
exactly the documented defaults, and a seed field is present in the payload
precisely when the caller supplied one; num_inference_steps, however, is not
clamped to the 1 to 4 domain — any supplied nonzero value passes through
unchanged (0, being falsy, and absence both default to 4). -/
theorem C9_flux_schnell_mapping :
    (∀ envKey (p : String) q,
        buildPayload envKey { prompt := some p, model := some "flux-schnell" } q =
          .fluxSchnell
            { prompt := jsTrim p, aspect := "1:1", num_inference_steps := 4,
              go_fast := true, megapixels := "1", output_format := "webp",
              output_quality := 80, disable_safety_checker := false, seed := none }) ∧
      (∀ envKey req q, req.model = some "flux-schnell" →
        ∃ i, buildPayload envKey req q = .fluxSchnell i ∧ i.seed = req.seed ∧
          i.num_inference_steps = jsOrNat req.num_inference_steps 4) ∧
      ∀ n : Nat, n ≠ 0 → jsOrNat (some n) 4 = n := by
  refine ⟨?_, ?_, ?_⟩
  · intro envKey p q
    simp only [buildPayload, Option.getD_some]
    rw [if_pos trivial]
    rfl
  · intro envKey req q hm
    simp only [buildPayload, hm, Option.getD_some]
    rw [if_pos trivial]
    exact ⟨_, rfl, rfl, rfl⟩
  · intro n hn
    simp [jsOrNat, hn]

/-- Witness for C9: a supplied seed and step count 50 pass through. -/
theorem C9_witness :
    (∃ i,
        buildPayload none
            { prompt := some "p", model := some "flux-schnell",
              num_inference_steps := some 50, seed := some 7 } (1 / 2) =
          .fluxSchnell i ∧ i.seed = some 7 ∧
          i.num_inference_steps = jsOrNat (some 50) 4) ∧
      jsOrNat (some 50) 4 = 50 := by
  constructor
  · exact C9_flux_schnell_mapping.2.1 none
      { prompt := some "p", model := some "flux-schnell",
        num_inference_steps := some 50, seed := some 7 }
      (1 / 2) rfl
  · exact C9_flux_schnell_mapping.2.2 50 (by decide)
